import Mathlib

/-!
Verification of the ExoExplorer texture-generation core
(`src/database/generate_textures.py`) against its natural-language
specification.  Numeric fields are modelled as rationals (the Python
floats involved in the checked claims are exact dyadic values), dict
fields as `Option`, Python `or`-chains by explicit truthiness, and the
fallible density computation (`ZeroDivisionError`) as `Option`.
-/

/-- The six planet categories (`PlanetType` enum). -/
inductive PlanetType where
  | hot_jupiter
  | warm_neptune
  | ice_giant
  | super_earth
  | terrestrial
  | mini_neptune
  deriving DecidableEq, Repr

/-- A MongoDB exoplanet record, restricted to the fields the texture
generator reads.  `none` models an absent key. -/
structure Exoplanet where
  mass : Option ℚ := none
  radius : Option ℚ := none
  temp_calculated : Option ℚ := none
  temp_measured : Option ℚ := none
  deriving DecidableEq

def EARTH_MASS : ℚ := 1
def EARTH_RADIUS : ℚ := 1

/-- Python truthiness chain `x or y` for an optional numeric `x`:
`None` and `0` are falsy, any other number is returned. -/
def truthyOr (x : Option ℚ) (y : ℚ) : ℚ :=
  match x with
  | none => y
  | some v => if v = 0 then y else v

/-- `exoplanet.get('mass', EARTH_MASS)` — default applies only when the
key is absent. -/
def effMass (e : Exoplanet) : ℚ := e.mass.getD EARTH_MASS

/-- `exoplanet.get('radius', EARTH_RADIUS)` — default applies only when
the key is absent. -/
def effRadius (e : Exoplanet) : ℚ := e.radius.getD EARTH_RADIUS

/-- `exoplanet.get('temp_calculated') or exoplanet.get('temp_measured')
or 300` (lines 38 and 61 and 239 of the source compute this
identically). -/
def effTemp (e : Exoplanet) : ℚ :=
  truthyOr e.temp_calculated (truthyOr e.temp_measured 300)

/-- `classify_planet` (source lines 35–57).  `none` models the
`ZeroDivisionError` Python raises when `mass / radius ** 3` divides by
zero. -/
def classify_planet (e : Exoplanet) : Option PlanetType :=
  let mass := effMass e
  let radius := effRadius e
  let temp := effTemp e
  if radius ^ 3 = 0 then none
  else
    let density := mass / radius ^ 3
    some <|
      if radius > 8 ∧ temp > 1000 ∧ density < 2/5 then .hot_jupiter
      else if 3 < radius ∧ radius < 8 ∧ 500 < temp ∧ temp < 1000 ∧ density < 4/5 then .warm_neptune
      else if radius > 3 ∧ temp < 500 ∧ density < 4/5 then .ice_giant
      else if 3/2 < radius ∧ radius < 4 ∧ density < 6/5 then .mini_neptune
      else if radius > 3/2 ∧ density ≥ 6/5 then .super_earth
      else .terrestrial

/-- The claim's six threshold rules, transcribed from the claim text
(top-down, first match wins, Terrestrial fallback), as a function of the
effective mass, radius and temperature. -/
def claimClassify (mass radius temp : ℚ) : PlanetType :=
  let density := mass / radius ^ 3
  if radius > 8 ∧ temp > 1000 ∧ density < 2/5 then .hot_jupiter
  else if 3 < radius ∧ radius < 8 ∧ 500 < temp ∧ temp < 1000 ∧ density < 4/5 then .warm_neptune
  else if radius > 3 ∧ temp < 500 ∧ density < 4/5 then .ice_giant
  else if 3/2 < radius ∧ radius < 4 ∧ density < 6/5 then .mini_neptune
  else if radius > 3/2 ∧ density ≥ 6/5 then .super_earth
  else .terrestrial

/-- **C1.** For every record whose effective radius is nonzero (the
radius-zero failure is claim C3's subject), `classify_planet` succeeds
and returns exactly the category selected by the claim's six threshold
rules evaluated top-down with first match winning, on the effective
mass, radius and temperature (defaults 1.0, 1.0, 300 when absent). -/
theorem classify_planet_matches_claim_rules (e : Exoplanet)
    (h : effRadius e ≠ 0) :
    classify_planet e = some (claimClassify (effMass e) (effRadius e) (effTemp e)) := by
  unfold classify_planet claimClassify
  rw [if_neg (pow_ne_zero 3 h)]

/-- Witness for C1 at the record `{mass: 320, radius: 9, temp_calculated: 1400}`. -/
theorem classify_planet_matches_claim_rules_witness :
    effRadius ⟨some 320, some 9, some 1400, none⟩ ≠ 0 ∧
      classify_planet ⟨some 320, some 9, some 1400, none⟩ =
        some (claimClassify (effMass ⟨some 320, some 9, some 1400, none⟩)
          (effRadius ⟨some 320, some 9, some 1400, none⟩)
          (effTemp ⟨some 320, some 9, some 1400, none⟩)) :=
  ⟨by norm_num [effRadius], classify_planet_matches_claim_rules _ (by norm_num [effRadius])⟩

/-- **C2.** The record `{mass: 320, radius: 9, temp_calculated: 1400}`
has density `320/729 ≈ 0.44`, which is not `< 2/5`, so the HotJupiter
rule fails and evaluation falls through to the Terrestrial fallback. -/
theorem classify_planet_borderline_terrestrial :
    classify_planet ⟨some 320, some 9, some 1400, none⟩ = some .terrestrial := by
  norm_num [classify_planet, effMass, effRadius, effTemp, truthyOr, EARTH_MASS, EARTH_RADIUS]

/-- **C3.** A record that supplies `radius = 0` is *not* replaced by the
default 1.0: `exoplanet.get('radius', EARTH_RADIUS)` keeps the supplied
0, `mass / radius ** 3` divides by zero, and classification raises
instead of succeeding. -/
theorem classify_planet_radius_zero_divides_by_zero :
    classify_planet ⟨none, some 0, none, none⟩ = none := by
  norm_num [classify_planet, effMass, effRadius, effTemp, truthyOr, EARTH_MASS, EARTH_RADIUS]

/-- The claim's temperature rule as stated: `temp_calculated` when
present, otherwise `temp_measured` when present, otherwise 300. -/
def claimTemp (e : Exoplanet) : ℚ :=
  match e.temp_calculated with
  | some t => t
  | none => e.temp_measured.getD 300

/-- The amended temperature rule: `temp_calculated` when present *and
nonzero*, otherwise `temp_measured` when present and nonzero, otherwise
300 (Python `or` treats a present 0 as falsy). -/
def claimTempAmended (e : Exoplanet) : ℚ :=
  match e.temp_calculated with
  | some t =>
    if t = 0 then
      match e.temp_measured with
      | some u => if u = 0 then 300 else u
      | none => 300
    else t
  | none =>
    match e.temp_measured with
    | some u => if u = 0 then 300 else u
    | none => 300

/-- **C8 counterexample.** A record with `temp_calculated = 0` (present)
and `temp_measured = 500`: the code's `or`-chain skips the falsy 0 and
uses 500, while the claim as stated would use the present value 0. -/
theorem effTemp_zero_calculated_counterexample :
    effTemp ⟨none, none, some 0, some 500⟩ ≠ claimTemp ⟨none, none, some 0, some 500⟩ := by
  norm_num [effTemp, truthyOr, claimTemp]

/-- **C8 (amended).** The effective temperature is `temp_calculated`
when present and nonzero, else `temp_measured` when present and nonzero,
else 300. -/
theorem effTemp_priority_amended : ∀ e : Exoplanet, effTemp e = claimTempAmended e := by
  rintro ⟨m, r, tc, tm⟩
  cases tc <;> cases tm <;>
    simp only [effTemp, truthyOr, claimTempAmended]

/-- `get_texture_resolution` (source lines 220–231).  Python `not radius`
is true for an absent radius and for a present radius equal to 0. -/
def get_texture_resolution (radius : Option ℚ) : ℕ :=
  match radius with
  | none => 256
  | some r =>
    if r = 0 then 256
    else if r > 10 then 512
    else if r > 5 then 256
    else if r > 2 then 128
    else 64

/-- `generate_planet_texture`'s side length (source line 235):
`resolution or get_texture_resolution(exoplanet.get('radius'))`, where a
supplied resolution of 0 is falsy. -/
def generate_planet_texture_size (e : Exoplanet) (resolution : Option ℕ) : ℕ :=
  match resolution with
  | some n => if n = 0 then get_texture_resolution e.radius else n
  | none => get_texture_resolution e.radius

/-- The claim's resolution table as stated: >10 → 512, >5 → 256,
>2 → 128, any other *present* radius → 64, absent → 256. -/
def claimResolution (radius : Option ℚ) : ℕ :=
  match radius with
  | none => 256
  | some r =>
    if r > 10 then 512
    else if r > 5 then 256
    else if r > 2 then 128
    else 64

/-- The amended resolution table: >10 → 512, >5 → 256, >2 → 128, any
other present *nonzero* radius → 64, and 256 when the radius is absent
*or zero*. -/
def claimResolutionAmended (radius : Option ℚ) : ℕ :=
  match radius with
  | none => 256
  | some r =>
    if r > 10 then 512
    else if r > 5 then 256
    else if r > 2 then 128
    else if r = 0 then 256
    else 64

/-- **C7 counterexample.** A present radius of 0 is falsy in Python, so
the code returns the 256 default where the claim's table says 64. -/
theorem get_texture_resolution_zero_counterexample :
    get_texture_resolution (some 0) ≠ claimResolution (some 0) := by
  norm_num [get_texture_resolution, claimResolution]

/-- **C7 (amended).** The detailed render's side length is determined
solely by the radius per the amended table (zero radius behaves like an
absent one), and the specific values 15 → 512, 7 → 256, 3 → 128,
1 → 64, absent → 256 hold. -/
theorem generate_planet_texture_size_table :
    (∀ e : Exoplanet, generate_planet_texture_size e none = claimResolutionAmended e.radius) ∧
      generate_planet_texture_size ⟨none, some 15, none, none⟩ none = 512 ∧
      generate_planet_texture_size ⟨none, some 7, none, none⟩ none = 256 ∧
      generate_planet_texture_size ⟨none, some 3, none, none⟩ none = 128 ∧
      generate_planet_texture_size ⟨none, some 1, none, none⟩ none = 64 ∧
      generate_planet_texture_size ⟨none, none, none, none⟩ none = 256 := by
  refine ⟨?_, ?_, ?_, ?_, ?_, ?_⟩
  · rintro ⟨m, rad, tc, tm⟩
    cases rad with
    | none => rfl
    | some r =>
      simp only [generate_planet_texture_size, get_texture_resolution, claimResolutionAmended]
      split_ifs <;> first | rfl | linarith
  all_goals norm_num [generate_planet_texture_size, get_texture_resolution]

/-- An RGB pixel with integer channels (stored images keep channels in
[0, 255]; intermediate sums may leave that range before clamping). -/
abbrev Pixel := ℤ × ℤ × ℤ

/-- `max(0, min(255, v))`, the clamping used by `add_noise`. -/
def clamp255 (n : ℤ) : ℤ := max 0 (min 255 n)

/-- One `add_noise` pixel update (source lines 151–157): a *single*
draw `d = random.randint(-intensity, intensity)` is added to all three
channels, each clamped to [0, 255]. -/
def noisePixel (p : Pixel) (d : ℤ) : Pixel :=
  (clamp255 (p.1 + d), clamp255 (p.2.1 + d), clamp255 (p.2.2 + d))

/-- The pixel loop of `add_noise`, consuming one draw per pixel from the
random stream `draws` starting at index `i`. -/
def add_noiseGo (draws : ℕ → ℤ) : ℕ → List Pixel → List Pixel
  | _, [] => []
  | i, p :: ps => noisePixel p (draws i) :: add_noiseGo draws (i + 1) ps

/-- `add_noise` (source lines 145–157) on the flattened pixel list of an
image, with the per-pixel random draws made explicit. -/
def add_noise (pixels : List Pixel) (draws : ℕ → ℤ) : List Pixel :=
  add_noiseGo draws 0 pixels

/-- The claim's version of the pixel update: an *independent* draw per
channel. -/
def claimNoisePixel (p : Pixel) (dr dg db : ℤ) : Pixel :=
  (clamp255 (p.1 + dr), clamp255 (p.2.1 + dg), clamp255 (p.2.2 + db))

/-- The claim's pixel loop, consuming three independent draws per pixel
from the random stream. -/
def claimAddNoiseGo (draws : ℕ → ℤ) : ℕ → List Pixel → List Pixel
  | _, [] => []
  | i, p :: ps =>
      claimNoisePixel p (draws i) (draws (i + 1)) (draws (i + 2)) ::
        claimAddNoiseGo draws (i + 3) ps

/-- The claim's `add_noise`: per-channel independent draws. -/
def claimAddNoise (pixels : List Pixel) (draws : ℕ → ℤ) : List Pixel :=
  claimAddNoiseGo draws 0 pixels

/-- A concrete random stream: draws 0, 10, -10, 0, 0, … -/
def drawsEx : ℕ → ℤ := fun n => if n = 1 then 10 else if n = 2 then -10 else 0

/-- **C4 counterexample.** On a single gray pixel with draws
(0, 10, −10), per-channel-independent noise would give (100, 110, 90),
but the code adds the single draw 0 to all three channels and gives
(100, 100, 100): the three channels always shift together. -/
theorem add_noise_not_per_channel_independent :
    add_noise [(100, 100, 100)] drawsEx ≠ claimAddNoise [(100, 100, 100)] drawsEx := by
  decide

/-- Channel triple within the byte range [0, 255]. -/
def inRange255 (p : Pixel) : Prop :=
  0 ≤ p.1 ∧ p.1 ≤ 255 ∧ 0 ≤ p.2.1 ∧ p.2.1 ≤ 255 ∧ 0 ≤ p.2.2 ∧ p.2.2 ≤ 255

theorem clamp255_bounds (n : ℤ) : 0 ≤ clamp255 n ∧ clamp255 n ≤ 255 :=
  ⟨le_max_left 0 _, max_le (by norm_num) (min_le_left 255 n)⟩

theorem add_noiseGo_forall_inRange (draws : ℕ → ℤ) :
    ∀ (pixels : List Pixel) (i : ℕ),
      List.Forall inRange255 (add_noiseGo draws i pixels) ∧
        (add_noiseGo draws i pixels).length = pixels.length := by
  intro pixels
  induction pixels with
  | nil => intro i; exact ⟨trivial, rfl⟩
  | cons p ps ih =>
    intro i
    simp only [add_noiseGo, List.forall_cons, List.length_cons]
    refine ⟨⟨?_, (ih (i + 1)).1⟩, by rw [(ih (i + 1)).2]⟩
    obtain ⟨h1, h2⟩ := clamp255_bounds (p.1 + draws i)
    obtain ⟨h3, h4⟩ := clamp255_bounds (p.2.1 + draws i)
    obtain ⟨h5, h6⟩ := clamp255_bounds (p.2.2 + draws i)
    exact ⟨h1, h2, h3, h4, h5, h6⟩

/-- **C4 (amended).** `add_noise` draws one uniform random integer per
pixel and adds that same value to all three channels; every resulting
channel is clamped to [0, 255], so no channel outside that range is ever
produced, for any draws, and every pixel of the canvas is processed. -/
theorem add_noise_output_in_byte_range :
    ∀ (pixels : List Pixel) (draws : ℕ → ℤ),
      List.Forall inRange255 (add_noise pixels draws) ∧
        (add_noise pixels draws).length = pixels.length := by
  intro pixels draws
  exact add_noiseGo_forall_inRange draws pixels 0

/-- The octave loop of `simple_perlin_noise` (source lines 136–140),
threading `(value, max_value, amplitude, frequency)` and returning the
final `(value, max_value)`. -/
noncomputable def noiseLoop (x y : ℝ) : ℕ → ℝ → ℝ → ℝ → ℝ → ℝ × ℝ
  | 0, v, m, _, _ => (v, m)
  | n + 1, v, m, a, f =>
      noiseLoop x y n (v + Real.sin (x * f) * Real.cos (y * f) * a) (m + a)
        (a * (1 / 2)) (f * 2)

/-- `simple_perlin_noise` (source lines 130–142): sums decaying
sinusoidal octaves and rescales `value / max_value` from [-1, 1] to
[0, 1]. -/
noncomputable def simple_perlin_noise (x y scale : ℝ) (octaves : ℕ) : ℝ :=
  let vm := noiseLoop x y octaves 0 0 1 scale
  (vm.1 / vm.2 + 1) / 2

theorem noiseLoop_invariant (x y : ℝ) :
    ∀ (n : ℕ) (v m a f : ℝ), 0 < a → |v| ≤ m →
      |(noiseLoop x y n v m a f).1| ≤ (noiseLoop x y n v m a f).2 ∧
        m ≤ (noiseLoop x y n v m a f).2 := by
  intro n
  induction n with
  | zero => intro v m a f _ hv; exact ⟨hv, le_refl m⟩
  | succ k ih =>
    intro v m a f ha hv
    have hterm : |Real.sin (x * f) * Real.cos (y * f) * a| ≤ a := by
      rw [abs_mul, abs_mul, abs_of_pos ha]
      have hs := Real.abs_sin_le_one (x * f)
      have hc := Real.abs_cos_le_one (y * f)
      have h1 : |Real.sin (x * f)| * |Real.cos (y * f)| ≤ 1 :=
        mul_le_one₀ hs (abs_nonneg _) hc
      nlinarith [abs_nonneg (Real.sin (x * f)), abs_nonneg (Real.cos (y * f))]
    have hsum : |v + Real.sin (x * f) * Real.cos (y * f) * a| ≤ m + a :=
      le_trans (abs_add _ _) (by linarith)
    obtain ⟨hA, hB⟩ := ih (v + Real.sin (x * f) * Real.cos (y * f) * a) (m + a)
      (a * (1 / 2)) (f * 2) (by linarith) hsum
    exact ⟨hA, le_trans (by linarith : m ≤ m + a) hB⟩

/-- **C6.** `simple_perlin_noise` is pure and deterministic — the same
four inputs always yield the same value — and for every octave count
≥ 1 that value lies in [0, 1]: each octave term is bounded by its
amplitude, so `value / max_value ∈ [-1, 1]`, and the final rescale lands
in [0, 1]. -/
theorem simple_perlin_noise_deterministic_unit_range :
    ∀ (x y scale : ℝ) (octaves : ℕ), 1 ≤ octaves →
      simple_perlin_noise x y scale octaves = simple_perlin_noise x y scale octaves ∧
        simple_perlin_noise x y scale octaves ∈ Set.Icc (0 : ℝ) 1 := by
  intro x y scale o ho
  refine ⟨rfl, ?_⟩
  cases o with
  | zero => omega
  | succ k =>
    have h0 : |(0 : ℝ) + Real.sin (x * scale) * Real.cos (y * scale) * 1| ≤ 0 + 1 := by
      rw [zero_add, zero_add, mul_one, abs_mul]
      exact mul_le_one₀ (Real.abs_sin_le_one _) (abs_nonneg _) (Real.abs_cos_le_one _)
    obtain ⟨hv, hm⟩ := noiseLoop_invariant x y k
      (0 + Real.sin (x * scale) * Real.cos (y * scale) * 1) (0 + 1)
      (1 * (1 / 2)) (scale * 2) (by norm_num) h0
    have hred : noiseLoop x y (k + 1) 0 0 1 scale =
        noiseLoop x y k (0 + Real.sin (x * scale) * Real.cos (y * scale) * 1) (0 + 1)
          (1 * (1 / 2)) (scale * 2) := rfl
    simp only [simple_perlin_noise, hred]
    set p := noiseLoop x y k (0 + Real.sin (x * scale) * Real.cos (y * scale) * 1) (0 + 1)
      (1 * (1 / 2)) (scale * 2) with hpdef
    have hmpos : (0 : ℝ) < p.2 := by linarith
    obtain ⟨hlo, hhi⟩ := abs_le.mp hv
    have hdivle : p.1 / p.2 ≤ 1 := (div_le_one hmpos).mpr hhi
    have hdivge : (-1 : ℝ) ≤ p.1 / p.2 := (le_div_iff₀ hmpos).mpr (by linarith)
    exact Set.mem_Icc.mpr ⟨by linarith, by linarith⟩

/-- Witness for C6 at `(x, y, scale, octaves) = (0, 0, 10, 3)`. -/
theorem simple_perlin_noise_witness :
    1 ≤ 3 ∧ simple_perlin_noise 0 0 10 3 = simple_perlin_noise 0 0 10 3 ∧
      simple_perlin_noise 0 0 10 3 ∈ Set.Icc (0 : ℝ) 1 :=
  ⟨by norm_num, (simple_perlin_noise_deterministic_unit_range 0 0 10 3 (by norm_num)).1,
    (simple_perlin_noise_deterministic_unit_range 0 0 10 3 (by norm_num)).2⟩

/-- An 8-bit RGB color. -/
abbrev RGB := ℕ × ℕ × ℕ

/-- `get_scientific_colors` (source lines 60–127): the
(base, shadow, highlight) palette per category and temperature bucket,
with the hex constants converted to RGB triples.  `draw` is the
`random.random()` value consulted by the MiniNeptune branch and by one
mid-temperature band each of SuperEarth and Terrestrial.  (The final
neutral-gray fallback of the Python function is unreachable: the match
on the six-valued enum is exhaustive.) -/
def get_scientific_colors (e : Exoplanet) (planet_type : PlanetType) (draw : ℚ) :
    RGB × RGB × RGB :=
  let temp := effTemp e
  match planet_type with
  | .hot_jupiter =>
    if temp > 2000 then ((90, 56, 32), (61, 37, 16), (138, 85, 48))
    else if temp > 1500 then ((106, 69, 48), (74, 48, 32), (154, 101, 64))
    else ((122, 88, 64), (90, 64, 48), (170, 120, 96))
  | .warm_neptune => ((139, 197, 232), (107, 163, 208), (170, 229, 255))
  | .ice_giant =>
    if temp < 100 then ((106, 143, 197), (74, 111, 165), (138, 175, 229))
    else ((154, 216, 229), (122, 184, 197), (186, 248, 255))
  | .mini_neptune =>
    if draw > 7/10 then ((229, 245, 255), (197, 213, 229), (255, 255, 255))
    else if draw > 2/5 then ((170, 213, 245), (138, 181, 213), (202, 245, 255))
    else ((138, 175, 181), (106, 143, 165), (170, 207, 213))
  | .super_earth =>
    if temp > 700 then ((255, 122, 64), (232, 90, 32), (255, 170, 112))
    else if temp > 400 then ((216, 176, 144), (184, 144, 112), (248, 208, 176))
    else if temp > 250 then
      (if draw < 2/5 then ((77, 122, 170), (61, 106, 154), (109, 154, 202))
       else if draw < 7/10 then ((106, 154, 122), (90, 138, 106), (138, 186, 154))
       else ((170, 154, 122), (138, 122, 90), (202, 186, 154)))
    else ((229, 245, 255), (197, 213, 229), (255, 255, 255))
  | .terrestrial =>
    if temp > 600 then ((248, 224, 176), (216, 192, 144), (255, 255, 208))
    else if temp > 350 then ((232, 176, 128), (200, 144, 96), (255, 208, 160))
    else if temp > 200 then
      (if draw < 3/10 then ((93, 138, 186), (77, 122, 170), (125, 170, 221))
       else if draw < 3/5 then ((122, 154, 138), (106, 138, 122), (154, 186, 170))
       else ((186, 170, 138), (154, 138, 106), (218, 202, 170)))
    else if temp > 150 then ((232, 154, 112), (200, 122, 80), (255, 186, 144))
    else ((245, 255, 255), (213, 229, 245), (255, 255, 255))

/-- The color of the concentric circle of radius `r` in
`generate_simple_texture` (source lines 301–304): `alpha = r / 16` and
`int(base * alpha + shadow * (1 - alpha))` per channel.  All the floats
involved are exact dyadic values, so the truncation is the natural-number
floor division below. -/
def ringColor (base shadow : RGB) (r : ℕ) : RGB :=
  ((base.1 * r + shadow.1 * (16 - r)) / 16,
   (base.2.1 * r + shadow.2.1 * (16 - r)) / 16,
   (base.2.2 * r + shadow.2.2 * (16 - r)) / 16)

/-- The smallest circle radius in 1..16 whose disc centered at (16, 16)
covers the pixel `(x, y)`.  The loop draws `r = 16` first and `r = 1`
last, so the smallest covering radius determines the final color. -/
def coveringRing (x y : ℤ) : Option ℕ :=
  (List.range' 1 16).find? (fun r => decide ((x - 16) ^ 2 + (y - 16) ^ 2 ≤ (r : ℤ) ^ 2))

/-- The 32×32 icon's pixel at `(x, y)` given the palette's base and
shadow colors: the innermost covering circle's color, or the initial
base fill for the corner pixels outside every circle. -/
def simpleTexturePixel (base shadow : RGB) (x y : ℤ) : RGB :=
  match coveringRing x y with
  | some r => ringColor base shadow r
  | none => base

/-- `generate_simple_texture` (source lines 292–306) as a pixel
function: classify, derive the palette, then paint the concentric
radial gradient.  `none` models the `ZeroDivisionError` propagating out
of `classify_planet`. -/
def generate_simple_texture (e : Exoplanet) (draw : ℚ) (x y : ℤ) : Option RGB :=
  match classify_planet e with
  | none => none
  | some pt =>
    let colors := get_scientific_colors e pt draw
    some (simpleTexturePixel colors.1 colors.2.1 x y)

theorem coveringRing_center : coveringRing 16 16 = some 1 := by decide

theorem coveringRing_edge : coveringRing 16 0 = some 16 := by decide

theorem ringColor_outermost (base shadow : RGB) : ringColor base shadow 16 = base := by
  obtain ⟨b1, b2, b3⟩ := base
  simp [ringColor]

/-- **C5 counterexample.** For the WarmNeptune record
`{radius: 5, temp_calculated: 600}` (palette base `#8bc5e8` =
(139, 197, 232), shadow `#6ba3d0` = (107, 163, 208)), the icon's center
pixel is (109, 165, 209) — the blend `⌊(base + 15·shadow)/16⌋`, nearly
the shadow color — not the base color, and the edge pixel (16, 0) is the
base color, not the shadow color: the gradient runs in the opposite
direction from the claim. -/
theorem generate_simple_texture_center_not_base :
    generate_simple_texture ⟨none, some 5, some 600, none⟩ 0 16 16 ≠
        some (139, 197, 232) ∧
      generate_simple_texture ⟨none, some 5, some 600, none⟩ 0 16 0 ≠
        some (107, 163, 208) := by
  have h : classify_planet ⟨none, some 5, some 600, none⟩ = some .warm_neptune := by
    norm_num [classify_planet, effMass, effRadius, effTemp, truthyOr, EARTH_MASS, EARTH_RADIUS]
  have hc : generate_simple_texture ⟨none, some 5, some 600, none⟩ 0 16 16 =
      some (109, 165, 209) := by
    simp only [generate_simple_texture, h, get_scientific_colors, simpleTexturePixel,
      coveringRing_center]
    rfl
  have he : generate_simple_texture ⟨none, some 5, some 600, none⟩ 0 16 0 =
      some (139, 197, 232) := by
    simp only [generate_simple_texture, h, get_scientific_colors, simpleTexturePixel,
      coveringRing_edge]
    rfl
  exact ⟨by rw [hc]; decide, by rw [he]; decide⟩

/-- **C5 (amended).** For every record the classifier accepts, the icon
render draws a radial gradient of concentric circles whose ring at
radius `r` interpolates with weight `r/16` toward the *base* color: the
outermost ring (and hence the disc edge, e.g. pixel (16, 0)) is exactly
the base color, and the center pixel is the innermost ring's color
`⌊(base + 15·shadow)/16⌋`, approximately the shadow color — i.e. the
gradient runs from (near-)shadow at the center to base at the edge. -/
theorem generate_simple_texture_gradient_amended :
    ∀ (e : Exoplanet) (draw : ℚ) (pt : PlanetType),
      classify_planet e = some pt →
      generate_simple_texture e draw 16 0 =
          some ((get_scientific_colors e pt draw).1) ∧
        generate_simple_texture e draw 16 16 =
          some (ringColor (get_scientific_colors e pt draw).1
            (get_scientific_colors e pt draw).2.1 1) := by
  intro e draw pt h
  simp only [generate_simple_texture, h, simpleTexturePixel, coveringRing_center,
    coveringRing_edge, ringColor_outermost]
  exact ⟨trivial, trivial⟩

/-- Witness for the amended C5 at the WarmNeptune record. -/
theorem generate_simple_texture_gradient_amended_witness :
    classify_planet ⟨none, some 5, some 600, none⟩ = some .warm_neptune ∧
      (generate_simple_texture ⟨none, some 5, some 600, none⟩ 0 16 0 =
          some ((get_scientific_colors ⟨none, some 5, some 600, none⟩ .warm_neptune 0).1) ∧
        generate_simple_texture ⟨none, some 5, some 600, none⟩ 0 16 16 =
          some (ringColor (get_scientific_colors ⟨none, some 5, some 600, none⟩ .warm_neptune 0).1
            (get_scientific_colors ⟨none, some 5, some 600, none⟩ .warm_neptune 0).2.1 1)) := by
  have h : classify_planet ⟨none, some 5, some 600, none⟩ = some .warm_neptune := by
    norm_num [classify_planet, effMass, effRadius, effTemp, truthyOr, EARTH_MASS, EARTH_RADIUS]
  exact ⟨h, generate_simple_texture_gradient_amended _ 0 _ h⟩

/-- An RGBA overlay texel: color channels plus alpha. -/
abbrev RGBA := ℕ × ℕ × ℕ × ℕ

/-- A pixel position (x, y). -/
abbrev Pt := ℕ × ℕ

/-- One channel of PIL's `img.paste(overlay, (0, 0), overlay)` alpha
compositing: `c·(255 − a)/255 + o·a/255` in rounded fixed-point
arithmetic. -/
def pasteChannel (c o a : ℕ) : ℕ := (c * (255 - a) + o * a + 127) / 255

/-- `img.paste(overlay, (0, 0), overlay)` (source line 217): alpha-over
blend of the RGBA overlay onto the RGB canvas, using the overlay's own
alpha band as the mask. -/
def pasteRGBA (img : Pt → RGB) (ov : Pt → RGBA) : Pt → RGB :=
  fun p =>
    (pasteChannel (img p).1 (ov p).1 (ov p).2.2.2,
     pasteChannel (img p).2.1 (ov p).2.1 (ov p).2.2.2,
     pasteChannel (img p).2.2 (ov p).2.2.1 (ov p).2.2.2)

/-- Whether the `i`-th of `bands` horizontal band rectangles
`[(0, (i/bands)·height), (width, (i/bands)·height + height/bands)]`
(source lines 190–195) covers image row `y`. -/
def bandCovers (height bands i y : ℕ) : Bool :=
  decide ((i : ℚ) / bands * height ≤ y) &&
    decide ((y : ℚ) ≤ (i : ℚ) / bands * height + (height : ℚ) / bands)

/-- The RGBA overlay `draw_clouds` builds for `pattern='bands'`: each
band rectangle is filled with the shadow color at alpha
`int((random()·0.4 + 0.3)·255)` (here `alphas i`); later bands overwrite
earlier ones, and rows no band covers stay fully transparent
`(0, 0, 0, 0)`. -/
def bandsOverlay (shadow : RGB) (height bands : ℕ) (alphas : ℕ → ℕ) : Pt → RGBA :=
  fun p =>
    match (List.range bands).reverse.find? (fun i => bandCovers height bands i p.2) with
    | some i => (shadow.1, shadow.2.1, shadow.2.2, alphas i)
    | none => (0, 0, 0, 0)

/-- `draw_clouds` with `pattern='bands'` (source lines 183–217): build
the band overlay on a transparent canvas, then alpha-composite it onto
the image. -/
def draw_clouds_bands (img : Pt → RGB) (shadow : RGB) (height bands : ℕ)
    (alphas : ℕ → ℕ) : Pt → RGB :=
  pasteRGBA img (bandsOverlay shadow height bands alphas)

theorem pasteChannel_alpha_zero (c o : ℕ) : pasteChannel c o 0 = c := by
  unfold pasteChannel
  omega

/-- **C9.** The bands cloud layer composites its overlay by alpha-over
blending, and that blend leaves every canvas pixel whose overlay alpha
is 0 (no band covers it) exactly unchanged. -/
theorem draw_clouds_bands_alpha_zero_preserves :
    ∀ (img : Pt → RGB) (shadow : RGB) (height bands : ℕ) (alphas : ℕ → ℕ)
      (ov : Pt → RGBA) (p : Pt),
      draw_clouds_bands img shadow height bands alphas =
          pasteRGBA img (bandsOverlay shadow height bands alphas) ∧
        ((ov p).2.2.2 = 0 → pasteRGBA img ov p = img p) := by
  intro img shadow height bands alphas ov p
  refine ⟨rfl, fun h => ?_⟩
  simp only [pasteRGBA, h, pasteChannel_alpha_zero]

/-- Witness for C9: a fully transparent overlay texel leaves a concrete
pixel of a concrete canvas unchanged. -/
theorem draw_clouds_bands_alpha_zero_preserves_witness :
    (draw_clouds_bands (fun _ => (5, 6, 7)) (1, 2, 3) 32 5 (fun _ => 100) =
        pasteRGBA (fun _ => (5, 6, 7)) (bandsOverlay (1, 2, 3) 32 5 (fun _ => 100))) ∧
      pasteRGBA (fun _ => (5, 6, 7)) (fun _ => (9, 9, 9, 0)) (0, 0) =
        (fun _ => ((5 : ℕ), (6 : ℕ), (7 : ℕ))) (0, 0) :=
  ⟨(draw_clouds_bands_alpha_zero_preserves (fun _ => (5, 6, 7)) (1, 2, 3) 32 5
      (fun _ => 100) (fun _ => (9, 9, 9, 0)) (0, 0)).1,
    (draw_clouds_bands_alpha_zero_preserves (fun _ => (5, 6, 7)) (1, 2, 3) 32 5
      (fun _ => 100) (fun _ => (9, 9, 9, 0)) (0, 0)).2 rfl⟩

/-- A MongoDB document as the batch runner sees it: an identity, a
display name, and the measurement fields the renderer reads. -/
structure PlanetDoc where
  id : ℕ
  name : String
  record : Exoplanet

/-- The per-planet loop body of `generate_and_store_textures` (source
lines 327–354): the whole render-encode-store block runs inside
`try/except`, so a planet whose render raises contributes an error log
entry (carrying the planet's name) and *no* storage update, and the loop
moves on to the next planet.  `render` abstracts the fallible
render-and-encode step; its `ok` value is the pair of encoded payloads
written back under the planet's id. -/
def generate_and_store_textures
    (render : PlanetDoc → Except String (String × String)) :
    List PlanetDoc → List (ℕ × String × String) × List (String × String)
  | [] => ([], [])
  | p :: ps =>
    let rest := generate_and_store_textures render ps
    match render p with
    | .ok tex => ((p.id, tex) :: rest.1, rest.2)
    | .error msg => (rest.1, (p.name, msg) :: rest.2)

/-- **C10.** For every batch and every fallible renderer: the storage
updates are exactly the successful renders (a failed planet never gets
an update), the error log is exactly the failed renders each paired with
its planet's name, and every planet of the batch is accounted for — one
planet's failure never aborts the remaining records. -/
theorem generate_and_store_textures_isolates_failures :
    ∀ (render : PlanetDoc → Except String (String × String))
      (planets : List PlanetDoc),
      (generate_and_store_textures render planets).1 =
          planets.filterMap (fun p =>
            match render p with
            | .ok tex => some (p.id, tex)
            | .error _ => none) ∧
        (generate_and_store_textures render planets).2 =
          planets.filterMap (fun p =>
            match render p with
            | .ok _ => none
            | .error msg => some (p.name, msg)) ∧
        (generate_and_store_textures render planets).1.length +
            (generate_and_store_textures render planets).2.length =
          planets.length := by
  intro render planets
  induction planets with
  | nil => exact ⟨rfl, rfl, rfl⟩
  | cons p ps ih =>
    obtain ⟨ih1, ih2, ih3⟩ := ih
    simp only [generate_and_store_textures, List.filterMap_cons]
    cases hr : render p with
    | ok tex => simp [hr, ih1, ih2, ← ih3]; omega
    | error msg => simp [hr, ih1, ih2, ← ih3]; omega
